import Mathlib

/-!
Shallow embedding of the trakscape-fleet offline buffering and sync engine.

The durable queue store is `src/modules/data_buffer.py` (class `DataBuffer`,
one SQLite table `gps_buffer`); the sync dispatcher is the worker loop
`sync_worker` of `src/modules/firebase_sync.py` (class `FirebaseSync`).

Modelling conventions:
 - SQLite rows of `gps_buffer` are the structure `Row`; the AUTOINCREMENT id
   counter is `Store.next_id` (starts at 1, never reused).
 - Timestamps are natural-number epoch seconds supplied by the caller
   (`now`); the `DATETIME DEFAULT CURRENT_TIMESTAMP` column stores the
   insertion time (UTC).
 - Python dictionaries are association lists `List (String × Val)` with
   first-match lookup; `dict.update` is `dictUpdate` (values of the second
   dictionary win on key collision).
 - The gzip+json codec applied to the `extra` dictionary is modelled at the
   decoded level: the blob column `compressed_data` holds the dictionary that
   was compressed (the codec is a lossless library round-trip, so only the
   wiring — which keys are filtered into the blob, and how the blob is merged
   back on read — is represented).
 - The database file size reported by `pragma_page_count * pragma_page_size`
   is the abstract field `Store.size_bytes`.
 - Each store method catches all exceptions and reports failure through its
   return value. The schema declares `device_id`, `latitude` and `longitude`
   NOT NULL, so binding Python `None` for one of them raises IntegrityError,
   caught, returning `False` with no row inserted; `Val.null` models a bound
   `None`. SQLite accepts `... WHERE id IN ()` as an empty set, so
   `mark_synced`/`increment_retry` always execute and report success.
 - The retention sweep compares the stored UTC text column
   `YYYY-MM-DD HH:MM:SS` with `cutoff.isoformat()` (`YYYY-MM-DDTHH:MM:SS...`,
   local clock) lexicographically. The date prefixes decide, and on equal
   dates the space (0x20) at index 10 sorts below `T` (0x54), so
   `timestamp < cutoff` holds exactly when the stored UTC calendar day is at
   most the cutoff's local calendar day. Calendar days are epoch-seconds
   divided by 86400 (`now` passed to the sweep is the local clock's epoch
   seconds, row timestamps are UTC epoch seconds, so the UTC/local skew is
   the difference between the two clocks supplied by the caller).
 - The worker's interval test `(datetime.now() - last_sync).seconds` is the
   seconds component of the timedelta, i.e. the elapsed seconds modulo 86400
   (it wraps after a full day), modelled as `(now - last_sync) % 86400`.
-/

/-- Scalar values carried in telemetry dictionaries (JSON scalars). -/
inductive Val where
  | int : Int → Val
  | str : String → Val
  | bool : Bool → Val
  | null : Val
deriving DecidableEq

/-- Python dictionaries are modelled as association lists with first-match
lookup. -/
def lookupKey {α : Type} : List (String × α) → String → Option α
  | [], _ => none
  | kv :: rest, k => if kv.1 = k then some kv.2 else lookupKey rest k

/-- Semantics of Python `dict.update`: values of `extra` replace values of
`base` at colliding keys (in place), and keys new to `base` are appended. -/
def dictUpdate (base extra : List (String × Val)) : List (String × Val) :=
  base.map (fun kv =>
    match lookupKey extra kv.1 with
    | some v => (kv.1, v)
    | none => kv) ++
  extra.filter (fun kv => (lookupKey base kv.1).isNone)

/-- One row of the `gps_buffer` table. -/
structure Row where
  id : Nat
  timestamp : Nat
  device_id : Val
  latitude : Val
  longitude : Val
  speed : Val
  heading : Val
  altitude : Val
  satellites : Val
  hdop : Val
  synced : Bool
  priority : Int
  compressed_data : Option (List (String × Val))
  retry_count : Nat
deriving DecidableEq

/-- The durable queue store: the `gps_buffer` table plus the AUTOINCREMENT
counter and the (abstract) database file size. -/
structure Store where
  rows : List Row
  next_id : Nat
  size_bytes : Nat
deriving DecidableEq

/-- A freshly initialized store: empty table, AUTOINCREMENT starts at 1. -/
def emptyStore : Store := { rows := [], next_id := 1, size_bytes := 0 }

/-- Keys excluded from the compressed `extra` blob by `insert_location`
(`k not in ['latitude', 'longitude', 'speed', 'heading', 'timestamp']`). -/
def coreKeys : List String := ["latitude", "longitude", "speed", "heading", "timestamp"]

/-- Hard-coded retry bound: `retry_count < 5` in `get_unsynced_batch` and
`retry_count >= 5` in `get_stats`. -/
def max_retry : Nat := 5

/-- The extra-attribute dictionary `insert_location` compresses: all keys of
the input dictionary outside `coreKeys`; `None` when that dictionary is empty
(`compressed = None` unless `extra_data` is truthy). -/
def extraBlob (location : List (String × Val)) : Option (List (String × Val)) :=
  let extra := location.filter (fun kv => !(coreKeys.contains kv.1))
  if extra.isEmpty then none else some extra

/-- The row `insert_location` builds from a location dictionary: the next
AUTOINCREMENT id, insertion time `now`, the optional numeric fields
defaulted to 0 via `dict.get` (their columns accept NULL), `synced = 0`,
`retry_count = 0`, and the compressed extra blob. -/
def newRowOf (s : Store) (location : List (String × Val)) (priority : Int)
    (now : Nat) (lat lon : Val) : Row :=
  { id := s.next_id
    timestamp := now
    device_id := (lookupKey location "device_id").getD (Val.str "unknown")
    latitude := lat
    longitude := lon
    speed := (lookupKey location "speed").getD (Val.int 0)
    heading := (lookupKey location "heading").getD (Val.int 0)
    altitude := (lookupKey location "altitude").getD (Val.int 0)
    satellites := (lookupKey location "satellites").getD (Val.int 0)
    hdop := (lookupKey location "hdop").getD (Val.int 0)
    synced := false
    priority := priority
    compressed_data := extraBlob location
    retry_count := 0 }

/-- DataBuffer.insert_location: requires `latitude` and `longitude` to be
present (missing keys raise `KeyError`, caught, returning `False` and leaving
the table unchanged); a present-but-`None` latitude, longitude or device_id
violates the column's NOT NULL constraint, raising IntegrityError, likewise
caught with no row inserted; otherwise the `newRowOf` row is appended.
Returns the success flag together with the updated store. -/
def insert_location (s : Store) (location : List (String × Val))
    (priority : Int) (now : Nat) : Bool × Store :=
  match lookupKey location "latitude", lookupKey location "longitude" with
  | some lat, some lon =>
      if lat = Val.null ∨ lon = Val.null ∨
          (lookupKey location "device_id").getD (Val.str "unknown") = Val.null then
        (false, s)
      else
        (true,
         { s with rows := s.rows ++ [newRowOf s location priority now lat lon]
                  next_id := s.next_id + 1 })
  | _, _ => (false, s)

/-- Total comparison realizing `ORDER BY priority DESC, timestamp ASC` with
the scan order of the index `(synced, priority DESC, timestamp)` breaking the
remaining ties by rowid. -/
def claimLe (a b : Row) : Bool :=
  decide (b.priority < a.priority) ||
    (decide (a.priority = b.priority) &&
      (decide (a.timestamp < b.timestamp) ||
        (decide (a.timestamp = b.timestamp) && decide (a.id ≤ b.id))))

/-- The `ORDER BY` relation as a proposition. -/
def ClaimOrder (a b : Row) : Prop := claimLe a b = true

instance : DecidableRel ClaimOrder := fun a b => decEq (claimLe a b) true

instance : IsTotal Row ClaimOrder where
  total a b := by
    unfold ClaimOrder claimLe
    rcases lt_trichotomy a.priority b.priority with h | h | h
    · right; simp [h]
    · rcases lt_trichotomy a.timestamp b.timestamp with h2 | h2 | h2
      · left; simp [h, h2]
      · rcases Nat.le_total a.id b.id with h3 | h3
        · left; simp [h, h2, h3]
        · right; simp [h.symm, h2.symm, h3]
      · right; simp [h.symm, h2]
    · left; simp [h]

instance : IsTrans Row ClaimOrder where
  trans a b c := by
    unfold ClaimOrder claimLe
    simp only [Bool.or_eq_true, Bool.and_eq_true, decide_eq_true_eq]
    omega

/-- Row selection of DataBuffer.get_unsynced_batch:
`WHERE synced = 0 AND retry_count < 5 ORDER BY priority DESC, timestamp ASC
LIMIT batch_size`. -/
def get_unsynced_rows (s : Store) (batch_size : Nat) : List Row :=
  (List.insertionSort ClaimOrder
      (s.rows.filter
        (fun r => !r.synced && decide (r.retry_count < max_retry)))).take batch_size

/-- The base dictionary `get_unsynced_batch` builds from a row before the
decompressed extra data is merged in. -/
def rowBase (r : Row) : List (String × Val) :=
  [("id", Val.int r.id),
   ("timestamp", Val.int r.timestamp),
   ("device_id", r.device_id),
   ("latitude", r.latitude),
   ("longitude", r.longitude),
   ("speed", r.speed),
   ("heading", r.heading),
   ("altitude", r.altitude),
   ("satellites", r.satellites),
   ("hdop", r.hdop)]

/-- Conversion of a claimed row to the returned dictionary: build the base
dictionary, then `data.update(extra)` with the decompressed blob when one is
stored. -/
def rowToDict (r : Row) : List (String × Val) :=
  match r.compressed_data with
  | none => rowBase r
  | some extra => dictUpdate (rowBase r) extra

/-- DataBuffer.get_unsynced_batch: claimed rows rendered as dictionaries. -/
def get_unsynced_batch (s : Store) (batch_size : Nat) : List (List (String × Val)) :=
  (get_unsynced_rows s batch_size).map rowToDict

/-- DataBuffer.mark_synced: `UPDATE gps_buffer SET synced = 1 WHERE id IN
(...)` as one transaction. SQLite accepts an empty `IN ()` list as the empty
set, so the statement always executes (updating every row whose id is
listed, no row otherwise) and the method returns `True`; `False` would only
arise from a real I/O failure, which the model does not represent. -/
def mark_synced (s : Store) (ids : List Nat) : Bool × Store :=
  (true,
   { s with rows := s.rows.map (fun r =>
      if r.id ∈ ids then { r with synced := true } else r) })

/-- DataBuffer.increment_retry: `UPDATE gps_buffer SET retry_count =
retry_count + 1 WHERE id IN (...)`; like `mark_synced` it always executes
(an empty `IN ()` list is the empty set) and reports success. -/
def increment_retry (s : Store) (ids : List Nat) : Bool × Store :=
  (true,
   { s with rows := s.rows.map (fun r =>
      if r.id ∈ ids then { r with retry_count := r.retry_count + 1 } else r) })

/-- Calendar day (days since the epoch) of an epoch-seconds timestamp. -/
def dayOf (t : Nat) : Int := ((t / 86400 : Nat) : Int)

/-- Calendar day of `datetime.now() - timedelta(days=days)` on the sweep's
local clock (`now` in local epoch seconds); floored division so that a
cutoff before the epoch deletes nothing. -/
def cutoffDayOf (now days : Nat) : Int :=
  Int.fdiv ((now : Int) - (days : Int) * 86400) 86400

/-- DataBuffer.cleanup_old_data: deletes rows with `synced = 1 AND timestamp <
cutoff` where the stored UTC text timestamp is compared with
`cutoff.isoformat()` as text; by the lexicographic semantics spelled out in
the header that comparison holds exactly when the row's UTC calendar day is
at most the cutoff's local calendar day. Returns the number of deleted rows
and runs `VACUUM` exactly when that number is positive. Result:
(deleted count, whether VACUUM ran, updated store). -/
def cleanup_old_data (s : Store) (days : Nat) (now : Nat) : Nat × Bool × Store :=
  let doomed : Row → Bool := fun r =>
    r.synced && decide (dayOf r.timestamp ≤ cutoffDayOf now days)
  (s.rows.countP doomed, decide (0 < s.rows.countP doomed),
   { s with rows := s.rows.filter (fun r => !(doomed r)) })

/-- DataBuffer.get_stats: the dictionary literally built by the source, in
construction order — keys `total`, `unsynced` (rows with `synced = 0`),
`failed` (rows with `retry_count >= 5`) and `size_bytes`. -/
def get_stats (s : Store) : List (String × Nat) :=
  [("total", s.rows.length),
   ("unsynced", s.rows.countP (fun r => !r.synced)),
   ("failed", s.rows.countP (fun r => decide (max_retry ≤ r.retry_count))),
   ("size_bytes", s.size_bytes)]

/-- The store operations available to the producer, dispatcher and retention
threads; reads (`claim`, `stats`) do not change the store. -/
inductive BufOp where
  | insert : List (String × Val) → Int → Nat → BufOp
  | claim : Nat → BufOp
  | markSynced : List Nat → BufOp
  | incrRetry : List Nat → BufOp
  | cleanup : Nat → Nat → BufOp
  | stats : BufOp

/-- State effect of one store operation. -/
def applyOp (s : Store) : BufOp → Store
  | .insert loc p t => (insert_location s loc p t).2
  | .claim _ => s
  | .markSynced ids => (mark_synced s ids).2
  | .incrRetry ids => (increment_retry s ids).2
  | .cleanup days t => (cleanup_old_data s days t).2.2
  | .stats => s

/-- State effect of a sequence of store operations. -/
def applyOps (s : Store) (ops : List BufOp) : Store :=
  ops.foldl applyOp s

/-- Well-formedness maintained by the store: every row id was assigned below
the AUTOINCREMENT counter. -/
abbrev WF (s : Store) : Prop := ∀ r ∈ s.rows, r.id < s.next_id

/-- Every row carrying the given id is already synced. -/
def SyncedAt (s : Store) (i : Nat) : Prop :=
  ∀ r ∈ s.rows, r.id = i → r.synced = true

/-- One element of FirebaseSync.sync_queue, as built by `queue_data` and by
the failure re-queue inside `sync_worker`. -/
structure QItem where
  qtimestamp : Nat
  data : List (String × Val)
  attempts : Nat
deriving DecidableEq

/-- Configuration consumed by the worker (`batch_size` default 100,
`sync_interval` default 30, `device_id` default "unknown" — defaults already
resolved). -/
structure SyncConfig where
  batch_size : Nat
  sync_interval : Nat
  device_id : String
deriving DecidableEq

/-- In-memory state of the sync worker loop: the FIFO `sync_queue`, the
accumulated `batch` (only the `data` member of each queue item is kept), and
`last_sync`. -/
structure WorkerState where
  queue : List QItem
  batch : List (List (String × Val))
  last_sync : Nat
deriving DecidableEq

/-- Observable result of one worker iteration: the new state and, when
`batch_upload` was invoked, the `(device_id, payload)` it was given. -/
structure StepResult where
  state : WorkerState
  pushed : Option (String × List (List (String × Val)))
deriving DecidableEq

/-- FirebaseSync.queue_data: append an item with a fresh timestamp and
`attempts = 0`. -/
def queue_data (st : WorkerState) (now : Nat) (d : List (String × Val)) : WorkerState :=
  { st with queue := st.queue ++ [⟨now, d, 0⟩] }

/-- One iteration of FirebaseSync.sync_worker. `now` is the current time and
`pushOk` the outcome `batch_upload` would report if invoked. With a non-empty
queue the head item is fetched and appended to the batch; the batch is
uploaded when it reaches `batch_size` or the seconds component of the time
since `last_sync` — `(datetime.now() - last_sync).seconds`, which wraps at
86400 — reaches `sync_interval`; on upload failure every batch member is
re-queued with
`attempts` set to the fetched item's `attempts + 1` and the batch is cleared.
With an empty queue (`queue.Empty` after the 1-second get timeout) a
non-empty batch is uploaded unconditionally; on failure there it is kept in
memory unchanged. -/
def sync_worker_step (cfg : SyncConfig) (st : WorkerState) (now : Nat)
    (pushOk : Bool) : StepResult :=
  match st.queue with
  | [] =>
      if st.batch.isEmpty then ⟨st, none⟩
      else if pushOk then ⟨⟨[], [], now⟩, some (cfg.device_id, st.batch)⟩
      else ⟨st, some (cfg.device_id, st.batch)⟩
  | item :: rest =>
      let grown := st.batch ++ [item.data]
      if decide (cfg.batch_size ≤ grown.length) ||
          decide (cfg.sync_interval ≤ (now - st.last_sync) % 86400) then
        if pushOk then ⟨⟨rest, [], now⟩, some (cfg.device_id, grown)⟩
        else
          ⟨⟨rest ++ grown.map (fun d => ⟨now, d, item.attempts + 1⟩), [],
            st.last_sync⟩,
           some (cfg.device_id, grown)⟩
      else ⟨⟨rest, grown, st.last_sync⟩, none⟩

/-! ### Dictionary lemmas -/

lemma lookupKey_append {α : Type} (l1 l2 : List (String × α)) (k : String) :
    lookupKey (l1 ++ l2) k =
      match lookupKey l1 k with
      | some v => some v
      | none => lookupKey l2 k := by
  induction l1 with
  | nil => simp [lookupKey]
  | cons kv rest ih =>
      by_cases h : kv.1 = k <;> simp [lookupKey, h, ih]

lemma lookupKey_extraFilter (location : List (String × Val)) (k : String)
    (hk : coreKeys.contains k = false) :
    lookupKey (location.filter (fun kv => !(coreKeys.contains kv.1))) k =
      lookupKey location k := by
  induction location with
  | nil => simp [lookupKey]
  | cons kv rest ih =>
      rw [List.filter_cons]
      by_cases hm : kv.1 ∈ coreKeys
      · rw [if_neg (by simp [hm])]
        have h : kv.1 ≠ k := by
          intro e
          exact absurd hm (by rw [e]; simpa using hk)
        rw [ih]
        simp [lookupKey, h]
      · rw [if_pos (by simpa using hm)]
        by_cases h : kv.1 = k
        · subst h
          simp [lookupKey]
        · simp only [lookupKey, if_neg h]
          exact ih

lemma lookupKey_isNoneFilter (base extra : List (String × Val)) (k : String) :
    lookupKey (extra.filter (fun kv => (lookupKey base kv.1).isNone)) k =
      if (lookupKey base k).isNone then lookupKey extra k else none := by
  induction extra with
  | nil => simp [lookupKey]
  | cons kv rest ih =>
      by_cases h : kv.1 = k
      · subst h
        cases hb : (lookupKey base kv.1).isNone <;>
          simp [List.filter, hb, lookupKey, ih]
      · cases hb : (lookupKey base kv.1).isNone <;>
          simp [List.filter, hb, lookupKey, h, ih]

lemma lookupKey_updMap (base extra : List (String × Val)) (k : String) :
    lookupKey (base.map (fun kv =>
        match lookupKey extra kv.1 with
        | some v => (kv.1, v)
        | none => kv)) k =
      match lookupKey base k, lookupKey extra k with
      | some _, some w => some w
      | some v, none => some v
      | none, _ => none := by
  induction base with
  | nil => simp [lookupKey]
  | cons kv rest ih =>
      by_cases h : kv.1 = k
      · subst h
        cases hx : lookupKey extra kv.1 <;> simp [lookupKey, hx]
      · cases hx : lookupKey extra kv.1 <;> simp [lookupKey, h, hx, ih]

/-- Lookup in a `dict.update` result: the extra dictionary wins at colliding
keys, the base dictionary answers elsewhere. -/
lemma lookupKey_dictUpdate (base extra : List (String × Val)) (k : String) :
    lookupKey (dictUpdate base extra) k =
      match lookupKey extra k with
      | some v => some v
      | none => lookupKey base k := by
  unfold dictUpdate
  rw [lookupKey_append, lookupKey_updMap, lookupKey_isNoneFilter]
  cases hb : lookupKey base k <;> cases hx : lookupKey extra k <;> simp [hb, hx]

lemma lookupKey_ne_nil {α : Type} {l : List (String × α)} {k : String} {v : α}
    (h : lookupKey l k = some v) : l.isEmpty = false := by
  cases l with
  | nil => simp [lookupKey] at h
  | cons kv rest => simp [List.isEmpty]

/-! ### Store lemmas -/

lemma extraBlob_lookup (location : List (String × Val)) (k : String) (v : Val)
    (hk : coreKeys.contains k = false) (hv : lookupKey location k = some v) :
    ∃ e, extraBlob location = some e ∧ lookupKey e k = some v := by
  have hex : lookupKey (location.filter (fun kv => !(coreKeys.contains kv.1))) k
      = some v := by
    rw [lookupKey_extraFilter location k hk]
    exact hv
  have hne := lookupKey_ne_nil hex
  refine ⟨location.filter (fun kv => !(coreKeys.contains kv.1)), ?_, hex⟩
  unfold extraBlob
  simp only [hne, Bool.false_eq_true, if_false]

/-- Inserting into a fresh store and claiming one record returns a single
dictionary in which every non-core key of the input reads back with the value
that was enqueued (through the compressed blob, overriding any colliding base
field). -/
lemma insert_roundtrip (loc : List (String × Val)) (k : String) (v : Val)
    (hlat : (lookupKey loc "latitude").isSome)
    (hlon : (lookupKey loc "longitude").isSome)
    (hlatn : lookupKey loc "latitude" ≠ some Val.null)
    (hlonn : lookupKey loc "longitude" ≠ some Val.null)
    (hdev : (lookupKey loc "device_id").getD (Val.str "unknown") ≠ Val.null)
    (hk : coreKeys.contains k = false)
    (hv : lookupKey loc k = some v) :
    (get_unsynced_batch (insert_location emptyStore loc 0 0).2 1).map
      (fun d => lookupKey d k) = [some v] := by
  cases hl : lookupKey loc "latitude" with
  | none => rw [hl] at hlat; simp at hlat
  | some lat =>
  cases hlo : lookupKey loc "longitude" with
  | none => rw [hlo] at hlon; simp at hlon
  | some lon =>
  obtain ⟨e, hblob, he⟩ := extraBlob_lookup loc k v hk hv
  have hguard : ¬(lat = Val.null ∨ lon = Val.null ∨
      (lookupKey loc "device_id").getD (Val.str "unknown") = Val.null) := by
    push_neg
    refine ⟨fun e2 => hlatn ?_, fun e2 => hlonn ?_, hdev⟩
    · rw [hl, e2]
    · rw [hlo, e2]
  simp [get_unsynced_batch, get_unsynced_rows, insert_location, newRowOf, hl, hlo,
        emptyStore, List.insertionSort, List.orderedInsert, max_retry, rowToDict,
        hblob, lookupKey_dictUpdate, he, hguard]

/-- A record every copy of which fails the claim filter is never returned by
`get_unsynced_rows`. -/
lemma not_claimed_of (s : Store) (i : Nat) (n : Nat)
    (h : ∀ r ∈ s.rows, r.id = i → ¬(r.synced = false ∧ r.retry_count < max_retry)) :
    i ∉ (get_unsynced_rows s n).map Row.id := by
  intro hmem
  obtain ⟨r, hr, hid⟩ := List.mem_map.mp hmem
  have hr2 : r ∈ List.insertionSort ClaimOrder
      (s.rows.filter (fun r => !r.synced && decide (r.retry_count < max_retry))) :=
    (List.take_sublist n _).mem hr
  rw [List.mem_insertionSort] at hr2
  obtain ⟨hrow, hpred⟩ := List.mem_filter.mp hr2
  simp only [Bool.and_eq_true, Bool.not_eq_true', decide_eq_true_eq] at hpred
  exact h r hrow hid ⟨hpred.1, hpred.2⟩

lemma insert_snd_cases (s : Store) (loc : List (String × Val)) (p : Int) (t : Nat) :
    (insert_location s loc p t).2 = s ∨
      ∃ r : Row, r.id = s.next_id
        ∧ (insert_location s loc p t).2.rows = s.rows ++ [r]
        ∧ (insert_location s loc p t).2.next_id = s.next_id + 1 := by
  unfold insert_location
  cases lookupKey loc "latitude" with
  | none => exact Or.inl rfl
  | some lat =>
      cases lookupKey loc "longitude" with
      | none => exact Or.inl rfl
      | some lon =>
          by_cases hnull : lat = Val.null ∨ lon = Val.null ∨
              (lookupKey loc "device_id").getD (Val.str "unknown") = Val.null
          · simp only [if_pos hnull]
            exact Or.inl trivial
          · simp only [if_neg hnull]
            exact Or.inr ⟨newRowOf s loc p t lat lon, rfl, rfl, trivial⟩

lemma mark_synced_next_id (s : Store) (ids : List Nat) :
    (mark_synced s ids).2.next_id = s.next_id := rfl

lemma mark_synced_rows (s : Store) (ids : List Nat) :
    (mark_synced s ids).2.rows = s.rows.map (fun r =>
      if r.id ∈ ids then { r with synced := true } else r) := rfl

lemma mark_synced_SyncedAt (s : Store) (i : Nat) :
    SyncedAt ((mark_synced s [i]).2) i := by
  intro r hr hid
  rw [mark_synced_rows s [i]] at hr
  obtain ⟨r0, hr0, rfl⟩ := List.mem_map.mp hr
  by_cases h : r0.id ∈ [i]
  · rw [if_pos h]
  · rw [if_neg h] at hid ⊢
    exact absurd (by simp [hid]) h

lemma mark_synced_WF (s : Store) (ids : List Nat) (h : WF s) :
    WF (mark_synced s ids).2 := by
  intro r hr
  rw [mark_synced_next_id]
  rw [mark_synced_rows] at hr
  obtain ⟨r0, hr0, rfl⟩ := List.mem_map.mp hr
  have := h r0 hr0
  split <;> simpa using this

lemma increment_retry_next_id (s : Store) (ids : List Nat) :
    (increment_retry s ids).2.next_id = s.next_id := rfl

lemma increment_retry_rows (s : Store) (ids : List Nat) :
    (increment_retry s ids).2.rows = s.rows.map (fun r =>
      if r.id ∈ ids then { r with retry_count := r.retry_count + 1 } else r) := rfl

lemma applyOp_preserves (s : Store) (i : Nat) (op : BufOp)
    (h1 : WF s) (h2 : i < s.next_id) (h3 : SyncedAt s i) :
    WF (applyOp s op) ∧ i < (applyOp s op).next_id ∧ SyncedAt (applyOp s op) i := by
  cases op with
  | insert loc p t =>
      simp only [applyOp]
      rcases insert_snd_cases s loc p t with h | ⟨r, hrid, hrows, hnext⟩
      · rw [h]
        exact ⟨h1, h2, h3⟩
      · refine ⟨?_, ?_, ?_⟩
        · intro r2 hr2
          rw [hrows] at hr2
          rw [hnext]
          rcases List.mem_append.mp hr2 with h | h
          · exact Nat.lt_succ_of_lt (h1 r2 h)
          · simp only [List.mem_singleton] at h
            subst h
            omega
        · rw [hnext]
          omega
        · intro r2 hr2 hid
          rw [hrows] at hr2
          rcases List.mem_append.mp hr2 with h | h
          · exact h3 r2 h hid
          · simp only [List.mem_singleton] at h
            subst h
            omega
  | claim n => exact ⟨h1, h2, h3⟩
  | markSynced ids =>
      simp only [applyOp]
      refine ⟨mark_synced_WF s ids h1, ?_, ?_⟩
      · rw [mark_synced_next_id]
        exact h2
      · intro r hr hid
        rw [mark_synced_rows] at hr
        obtain ⟨r0, hr0, rfl⟩ := List.mem_map.mp hr
        by_cases h : r0.id ∈ ids
        · rw [if_pos h]
        · rw [if_neg h] at hid ⊢
          exact h3 r0 hr0 hid
  | incrRetry ids =>
      simp only [applyOp]
      refine ⟨?_, ?_, ?_⟩
      · intro r hr
        rw [increment_retry_next_id]
        rw [increment_retry_rows] at hr
        obtain ⟨r0, hr0, rfl⟩ := List.mem_map.mp hr
        have := h1 r0 hr0
        split <;> simpa using this
      · rw [increment_retry_next_id]
        exact h2
      · intro r hr hid
        rw [increment_retry_rows] at hr
        obtain ⟨r0, hr0, rfl⟩ := List.mem_map.mp hr
        by_cases hm : r0.id ∈ ids
        · rw [if_pos hm] at hid ⊢
          exact h3 r0 hr0 hid
        · rw [if_neg hm] at hid ⊢
          exact h3 r0 hr0 hid
  | cleanup days t =>
      simp only [applyOp]
      refine ⟨?_, h2, ?_⟩
      · intro r hr
        exact h1 r (List.mem_of_mem_filter hr)
      · intro r hr hid
        exact h3 r (List.mem_of_mem_filter hr) hid
  | stats => exact ⟨h1, h2, h3⟩

lemma applyOps_preserves (ops : List BufOp) :
    ∀ (s : Store) (i : Nat), WF s → i < s.next_id → SyncedAt s i →
      WF (applyOps s ops) ∧ i < (applyOps s ops).next_id ∧ SyncedAt (applyOps s ops) i := by
  induction ops with
  | nil => intro s i h1 h2 h3; exact ⟨h1, h2, h3⟩
  | cons op rest ih =>
      intro s i h1 h2 h3
      obtain ⟨g1, g2, g3⟩ := applyOp_preserves s i op h1 h2 h3
      exact ih (applyOp s op) i g1 g2 g3

/-- Iterated application of `increment_retry` with the same id list, as the
dispatcher would do across repeated failed delivery attempts. -/
def incrN (s : Store) (ids : List Nat) : Nat → Store
  | 0 => s
  | n + 1 => (increment_retry (incrN s ids n) ids).2

lemma incrN_rows (s : Store) (ids : List Nat) :
    ∀ n, (incrN s ids n).rows = s.rows.map (fun r =>
      if r.id ∈ ids then { r with retry_count := r.retry_count + n } else r) := by
  intro n
  induction n with
  | zero =>
      show s.rows = _
      rw [List.map_congr_left (g := id), List.map_id]
      intro r _
      split <;> rfl
  | succ n ih =>
      show (increment_retry (incrN s ids n) ids).2.rows = _
      rw [increment_retry_rows, ih, List.map_map]
      apply List.map_congr_left
      intro r _
      by_cases hm : r.id ∈ ids
      · simp [Function.comp, hm, Nat.add_assoc]
      · simp [Function.comp, hm]

lemma incrN_next_id (s : Store) (ids : List Nat) (n : Nat) :
    (incrN s ids n).next_id = s.next_id := by
  induction n with
  | zero => rfl
  | succ n ih =>
      show (increment_retry (incrN s ids n) ids).2.next_id = _
      rw [increment_retry_next_id, ih]

lemma syncedAt_not_claimed (s : Store) (i n : Nat) (h : SyncedAt s i) :
    i ∉ (get_unsynced_rows s n).map Row.id := by
  apply not_claimed_of
  intro r hr hid hcl
  have htrue := h r hr hid
  rw [hcl.1] at htrue
  simp at htrue

/-! ### Claim scenarios -/

/-- A minimal valid location dictionary. -/
def scenLoc (x : Int) : List (String × Val) :=
  [("latitude", Val.int x), ("longitude", Val.int 0)]

/-- Three records inserted at times 0, 1, 2 with priorities 0, 0, 5 (they
receive ids 1, 2, 3). -/
def scenStore : Store :=
  (insert_location
    ((insert_location
      ((insert_location emptyStore (scenLoc 1) 0 0).2) (scenLoc 2) 0 1).2)
    (scenLoc 3) 5 2).2

/-- The ordering the specification claims for claimed batches: priority
descending, then creation time ascending. -/
def specOrder (a b : Row) : Prop :=
  b.priority < a.priority ∨ (a.priority = b.priority ∧ a.timestamp ≤ b.timestamp)

/-! ### Claim theorems -/

/-- C2: for every store state and every limit, `claim_batch`
(`get_unsynced_batch`) returns only records with `synced = 0` and
`retry_count < max_retry`, at most `limit` of them, ordered by priority
descending with creation time ascending as tie-break; and for three records
inserted in order with priorities [0, 0, 5], claiming 2 returns the
priority-5 record (id 3) followed by the earliest priority-0 record (id 1). -/
theorem C2_claim_batch_order :
    (∀ (s : Store) (limit : Nat),
      (∀ r ∈ get_unsynced_rows s limit, r.synced = false ∧ r.retry_count < max_retry)
      ∧ (get_unsynced_rows s limit).length ≤ limit
      ∧ List.Pairwise specOrder (get_unsynced_rows s limit))
    ∧ (get_unsynced_batch scenStore 2).map (fun d => lookupKey d "id")
        = [some (Val.int 3), some (Val.int 1)]
    ∧ scenStore.rows.map Row.priority = [0, 0, 5] := by
  refine ⟨?_, by decide, by decide⟩
  intro s limit
  refine ⟨?_, ?_, ?_⟩
  · intro r hr
    have hr2 := (List.take_sublist limit _).mem hr
    rw [List.mem_insertionSort] at hr2
    obtain ⟨_, hpred⟩ := List.mem_filter.mp hr2
    simp only [Bool.and_eq_true, Bool.not_eq_true', decide_eq_true_eq] at hpred
    exact hpred
  · unfold get_unsynced_rows
    rw [List.length_take]
    exact min_le_left _ _
  · have hs := List.sorted_insertionSort ClaimOrder
      (s.rows.filter (fun r => !r.synced && decide (r.retry_count < max_retry)))
    have hp : List.Pairwise ClaimOrder (get_unsynced_rows s limit) :=
      List.Pairwise.sublist (List.take_sublist limit _) hs
    refine hp.imp ?_
    intro a b hab
    unfold ClaimOrder claimLe at hab
    simp only [Bool.or_eq_true, Bool.and_eq_true, decide_eq_true_eq] at hab
    unfold specOrder
    omega

/-- Witness for C2 at the concrete scenario store and limit 2. -/
theorem C2_claim_batch_order_witness :
    (get_unsynced_rows scenStore 2).length ≤ 2 :=
  (C2_claim_batch_order.1 scenStore 2).2.1

/-- C3: Synced is terminal. Under every sequence of store operations, once
every copy of a record id is synced it stays synced (`mark_synced` only sets
the flag, `increment_retry` and `cleanup_old_data` never clear it, and ids
are never reused by `insert_location`); consequently, after `mark_synced
[i]`, no later `claim_batch` ever returns a record with id `i`. -/
theorem C3_synced_terminal :
    ∀ (s : Store) (i : Nat) (ops : List BufOp) (n : Nat),
      WF s → i < s.next_id →
      (SyncedAt s i → SyncedAt (applyOps s ops) i
        ∧ i ∉ (get_unsynced_rows (applyOps s ops) n).map Row.id)
      ∧ i ∉ (get_unsynced_rows (applyOps ((mark_synced s [i]).2) ops) n).map Row.id := by
  intro s i ops n h1 h2
  constructor
  · intro h3
    obtain ⟨g1, g2, g3⟩ := applyOps_preserves ops s i h1 h2 h3
    exact ⟨g3, syncedAt_not_claimed _ i n g3⟩
  · have hS := mark_synced_SyncedAt s i
    have hW := mark_synced_WF s [i] h1
    have h2b : i < (mark_synced s [i]).2.next_id := by
      rw [mark_synced_next_id]
      exact h2
    obtain ⟨g1, g2, g3⟩ := applyOps_preserves ops _ i hW h2b hS
    exact syncedAt_not_claimed _ i n g3

/-- A store holding one record (id 1). -/
def oneRecStore : Store := (insert_location emptyStore (scenLoc 1) 0 0).2

/-- Operations run after the mark in the C3 witness: a failed-delivery retry
bump, a fresh insertion, and a retention sweep. -/
def opsAfterMark : List BufOp :=
  [BufOp.incrRetry [1], BufOp.insert (scenLoc 2) 0 3, BufOp.cleanup 0 10]

/-- Witness for C3: after syncing record 1, it is never claimed again across
a retry bump, an insertion and a cleanup. -/
theorem C3_synced_terminal_witness :
    (1 : Nat) ∉ (get_unsynced_rows (applyOps ((mark_synced oneRecStore [1]).2)
      opsAfterMark) 5).map Row.id :=
  (C3_synced_terminal oneRecStore 1 opsAfterMark 5 (by decide) (by decide)).2

/-- C9: round-trip of extra attributes through the compress-on-write /
decompress-on-read cycle: a record that enqueues successfully (latitude,
longitude and device id present and non-null, so the INSERT passes the NOT
NULL constraints) with any extra attribute — a key outside the five core
keys — is returned by `claim_batch` with the identical key and value. -/
theorem C9_extra_roundtrip :
    ∀ (loc : List (String × Val)) (k : String) (v : Val),
      (lookupKey loc "latitude").isSome → (lookupKey loc "longitude").isSome →
      lookupKey loc "latitude" ≠ some Val.null →
      lookupKey loc "longitude" ≠ some Val.null →
      (lookupKey loc "device_id").getD (Val.str "unknown") ≠ Val.null →
      coreKeys.contains k = false → lookupKey loc k = some v →
      (get_unsynced_batch (insert_location emptyStore loc 0 0).2 1).map
        (fun d => lookupKey d k) = [some v] :=
  fun loc k v h1 h2 h3 h4 h5 h6 h7 => insert_roundtrip loc k v h1 h2 h3 h4 h5 h6 h7

/-- A location enqueued with the extra attribute heading_raw = "123.4". -/
def locHeadingRaw : List (String × Val) :=
  [("latitude", Val.int 37), ("longitude", Val.int 122),
   ("heading_raw", Val.str "123.4")]

/-- Witness for C9: the attribute heading_raw = "123.4" reads back
identically from the claimed batch. -/
theorem C9_extra_roundtrip_witness :
    (get_unsynced_batch (insert_location emptyStore locHeadingRaw 0 0).2 1).map
      (fun d => lookupKey d "heading_raw") = [some (Val.str "123.4")] :=
  C9_extra_roundtrip locHeadingRaw "heading_raw" (Val.str "123.4")
    (by decide) (by decide) (by decide) (by decide) (by decide) (by decide) (by decide)

/-- C10: for a record that enqueues successfully (latitude, longitude and
device id present and non-null, passing the NOT NULL constraints), a key that
collides with a base field of the returned record but is not among the five
filtered core keys (id, device_id, altitude, satellites, hdop) is stored in
the compressed blob and, on read, overrides the column value, so the claimed
dictionary reports the enqueued value — in particular an enqueued id key
overwrites the store-assigned record id. -/
theorem C10_extra_overrides_columns :
    ∀ (loc : List (String × Val)) (k : String) (v : Val),
      (lookupKey loc "latitude").isSome → (lookupKey loc "longitude").isSome →
      lookupKey loc "latitude" ≠ some Val.null →
      lookupKey loc "longitude" ≠ some Val.null →
      (lookupKey loc "device_id").getD (Val.str "unknown") ≠ Val.null →
      k ∈ ["id", "device_id", "altitude", "satellites", "hdop"] →
      lookupKey loc k = some v →
      (get_unsynced_batch (insert_location emptyStore loc 0 0).2 1).map
        (fun d => lookupKey d k) = [some v] := by
  intro loc k v h1 h2 h3 h4 h5 hk hv
  have hc : coreKeys.contains k = false := by
    simp only [List.mem_cons, List.not_mem_nil, or_false] at hk
    rcases hk with rfl | rfl | rfl | rfl | rfl <;> decide
  exact insert_roundtrip loc k v h1 h2 h3 h4 h5 hc hv

/-- A location enqueued with an id key of its own. -/
def locIdCollision : List (String × Val) :=
  [("latitude", Val.int 37), ("longitude", Val.int 122), ("id", Val.int 999)]

/-- Witness for C10: the store assigns id 1 to the new row, yet the claimed
dictionary reports the enqueued id value 999. -/
theorem C10_extra_overrides_columns_witness :
    (get_unsynced_batch (insert_location emptyStore locIdCollision 0 0).2 1).map
      (fun d => lookupKey d "id") = [some (Val.int 999)]
    ∧ (get_unsynced_rows (insert_location emptyStore locIdCollision 0 0).2 1).map
        Row.id = [1] :=
  ⟨C10_extra_overrides_columns locIdCollision "id" (Val.int 999)
      (by decide) (by decide) (by decide) (by decide) (by decide) (by decide) (by decide),
   by decide⟩

/-- A minimal valid location (latitude and longitude only). -/
def locLatLon : List (String × Val) := [("latitude", Val.int 10), ("longitude", Val.int 20)]

/-- Counterexample to C4 as stated: `enqueue` does not return the new
record's id and does not raise StorageError. Two successful insertions that
assign the distinct ids 1 and 2 both return the same constant value `true`
(so the return value cannot be the id), and a missing latitude yields the
return value `false` with the store unchanged — the failure is reported as a
boolean, not an exception. -/
theorem C4_returns_flag_counterexample :
    (insert_location emptyStore locLatLon 0 0).1 = true
    ∧ (insert_location (insert_location emptyStore locLatLon 0 0).2 locLatLon 0 1).1 = true
    ∧ (insert_location emptyStore locLatLon 0 0).2.rows.map Row.id = [1]
    ∧ (insert_location (insert_location emptyStore locLatLon 0 0).2 locLatLon 0 1).2.rows.map
        Row.id = [1, 2]
    ∧ insert_location emptyStore [("longitude", Val.int 20)] 0 0 = (false, emptyStore) := by
  decide

/-- C4 (amended): `enqueue` succeeds (returns `true`) exactly when latitude
and longitude are present with non-null values and the device id (when
supplied) is non-null — the NOT NULL columns — and returns `false` leaving
the store unchanged otherwise; on success it appends one row carrying the
next id in which speed, heading, altitude, satellites and hdop default to 0
when absent, and every key outside the five filtered core keys is serialized
into the compressed blob. -/
theorem C4_enqueue_contract :
    ∀ (s : Store) (loc : List (String × Val)) (p : Int) (t : Nat),
      ((insert_location s loc p t).1 = true ↔
        ((lookupKey loc "latitude").isSome ∧ (lookupKey loc "longitude").isSome
          ∧ lookupKey loc "latitude" ≠ some Val.null
          ∧ lookupKey loc "longitude" ≠ some Val.null
          ∧ (lookupKey loc "device_id").getD (Val.str "unknown") ≠ Val.null))
      ∧ ((insert_location s loc p t).1 = false → (insert_location s loc p t).2 = s)
      ∧ ((insert_location s loc p t).1 = true →
          ∃ row : Row, (insert_location s loc p t).2.rows = s.rows ++ [row]
            ∧ row.id = s.next_id
            ∧ (insert_location s loc p t).2.next_id = s.next_id + 1
            ∧ (lookupKey loc "speed" = none → row.speed = Val.int 0)
            ∧ (lookupKey loc "heading" = none → row.heading = Val.int 0)
            ∧ (lookupKey loc "altitude" = none → row.altitude = Val.int 0)
            ∧ (lookupKey loc "satellites" = none → row.satellites = Val.int 0)
            ∧ (lookupKey loc "hdop" = none → row.hdop = Val.int 0)
            ∧ row.synced = false
            ∧ row.retry_count = 0
            ∧ row.priority = p
            ∧ row.compressed_data = extraBlob loc
            ∧ (∀ (k : String) (v : Val), coreKeys.contains k = false →
                lookupKey loc k = some v →
                ∃ e, row.compressed_data = some e ∧ lookupKey e k = some v)) := by
  intro s loc p t
  cases h1 : lookupKey loc "latitude" with
  | none =>
      refine ⟨?_, ?_, ?_⟩
      · unfold insert_location
        rw [h1]
        simp [h1]
      · intro _
        unfold insert_location
        rw [h1]
      · intro htrue
        unfold insert_location at htrue
        rw [h1] at htrue
        simp at htrue
  | some lat =>
      cases h2 : lookupKey loc "longitude" with
      | none =>
          refine ⟨?_, ?_, ?_⟩
          · unfold insert_location
            rw [h1, h2]
            simp [h2]
          · intro _
            unfold insert_location
            rw [h1, h2]
          · intro htrue
            unfold insert_location at htrue
            rw [h1, h2] at htrue
            simp at htrue
      | some lon =>
          by_cases hnull : lat = Val.null ∨ lon = Val.null ∨
              (lookupKey loc "device_id").getD (Val.str "unknown") = Val.null
          · refine ⟨?_, ?_, ?_⟩
            · unfold insert_location
              rw [h1, h2]
              simp only [if_pos hnull]
              constructor
              · intro hfalse
                simp at hfalse
              · rintro ⟨_, _, hn1, hn2, hn3⟩
                exfalso
                rcases hnull with h | h | h
                · exact hn1 (by rw [h])
                · exact hn2 (by rw [h])
                · exact hn3 h
            · intro _
              unfold insert_location
              rw [h1, h2]
              simp only [if_pos hnull]
            · intro htrue
              exfalso
              unfold insert_location at htrue
              rw [h1, h2] at htrue
              simp only [if_pos hnull] at htrue
              simp at htrue
          · have hnn := hnull
            push_neg at hnn
            refine ⟨?_, ?_, ?_⟩
            · unfold insert_location
              rw [h1, h2]
              simp only [if_neg hnull]
              constructor
              · intro _
                refine ⟨by simp, by simp, ?_, ?_, hnn.2.2⟩
                · simp [hnn.1]
                · simp [hnn.2.1]
              · intro _
                simp
            · intro hf
              exfalso
              unfold insert_location at hf
              rw [h1, h2] at hf
              simp only [if_neg hnull] at hf
              simp at hf
            · intro _
              unfold insert_location
              rw [h1, h2]
              simp only [if_neg hnull]
              refine ⟨newRowOf s loc p t lat lon, rfl, rfl, trivial,
                ?_, ?_, ?_, ?_, ?_, rfl, rfl, rfl, rfl, ?_⟩
              · intro h
                simp [newRowOf, h]
              · intro h
                simp [newRowOf, h]
              · intro h
                simp [newRowOf, h]
              · intro h
                simp [newRowOf, h]
              · intro h
                simp [newRowOf, h]
              · intro k v hk hv
                obtain ⟨e, he1, he2⟩ := extraBlob_lookup loc k v hk hv
                exact ⟨e, by simp [newRowOf, he1], he2⟩

/-- Witness for C4 (amended) at a concrete location dictionary. -/
theorem C4_enqueue_contract_witness :
    (insert_location emptyStore locLatLon 0 0).1 = true :=
  (C4_enqueue_contract emptyStore locLatLon 0 0).1.mpr (by decide)

/-- A store with two records (inserted at times 10 and 20) of which the
first has been marked synced. -/
def retStore : Store :=
  (mark_synced
    ((insert_location ((insert_location emptyStore (scenLoc 1) 0 10).2)
      (scenLoc 2) 0 20).2) [1]).2

/-- A store with one synced record created at second 514800 (day 5, 23:00
UTC). -/
def dayStore : Store :=
  (mark_synced ((insert_location emptyStore (scenLoc 1) 0 514800).2) [1]).2

/-- Counterexample to C6 as stated: `reclaim` does not delete exactly the
Synced rows older than the window. The store holds one synced record created
at second 514800 (day 5, 23:00); a sweep with a 7-day window at second
1072800 (day 12, 10:00) deletes it and leaves the table empty, although the
record is only 558000 seconds — about 6.46 days — old, strictly younger than
the 7-day window. The SQL text comparison of the UTC `YYYY-MM-DD HH:MM:SS`
column against the isoformat cutoff reduces to a calendar-day comparison, so
every same-date row is swept with the genuinely expired ones. -/
theorem C6_reclaim_day_counterexample :
    (cleanup_old_data dayStore 7 1072800).1 = 1
    ∧ (cleanup_old_data dayStore 7 1072800).2.2.rows = []
    ∧ dayStore.rows.map (fun r => r.synced) = [true]
    ∧ 1072800 - 514800 < 7 * 86400 := by
  decide

/-- C6 (amended): `reclaim` (`cleanup_old_data`) deletes exactly the rows
that are Synced with creation calendar day (UTC day of `created_at`) at most
the calendar day of the sweep's local time minus the window — day
granularity, so rows on the cutoff date are deleted even when strictly
younger than the window — returns the number of deleted rows, and runs the
VACUUM space compaction exactly when that number is positive; a zero-window
sweep deletes every Synced record created on or before the sweep day and no
Pending record. -/
theorem C6_reclaim_spec :
    ∀ (s : Store) (days now : Nat),
      (∀ r : Row, r ∈ (cleanup_old_data s days now).2.2.rows ↔
        r ∈ s.rows ∧ ¬(r.synced = true ∧ dayOf r.timestamp ≤ cutoffDayOf now days))
      ∧ ((cleanup_old_data s days now).1 =
          s.rows.countP (fun r => r.synced && decide (dayOf r.timestamp ≤ cutoffDayOf now days)))
      ∧ ((cleanup_old_data s days now).2.1 = true ↔ 0 < (cleanup_old_data s days now).1)
      ∧ ((∀ r ∈ s.rows, r.timestamp / 86400 ≤ now / 86400) →
          (cleanup_old_data s 0 now).2.2.rows = s.rows.filter (fun r => !r.synced)) := by
  intro s days now
  refine ⟨?_, rfl, ?_, ?_⟩
  · intro r
    simp only [cleanup_old_data, List.mem_filter, Bool.and_eq_true, Bool.not_eq_true',
      Bool.and_eq_false_iff, decide_eq_true_eq, decide_eq_false_iff_not]
    constructor
    · rintro ⟨hmem, hp⟩
      refine ⟨hmem, ?_⟩
      rintro ⟨hs, ht⟩
      rcases hp with hp | hp
      · rw [hs] at hp
        simp at hp
      · exact hp ht
    · rintro ⟨hmem, hp⟩
      refine ⟨hmem, ?_⟩
      by_cases hs : r.synced = true
      · right
        intro ht
        exact hp ⟨hs, ht⟩
      · left
        simpa using hs
  · simp [cleanup_old_data]
  · intro h
    have hcut : cutoffDayOf now 0 = dayOf now := by
      unfold cutoffDayOf dayOf
      simp only [Nat.cast_zero, zero_mul, sub_zero]
      rw [Int.fdiv_eq_tdiv (by positivity) (by norm_num), Int.ofNat_tdiv]
      norm_num
    simp only [cleanup_old_data]
    apply List.filter_congr
    intro r hr
    have ht : dayOf r.timestamp ≤ cutoffDayOf now 0 := by
      rw [hcut]
      unfold dayOf
      exact_mod_cast h r hr
    simp [ht]

/-- Witness for C6 (amended): a zero-window sweep at time 100 removes
exactly the synced record and keeps the pending one. -/
theorem C6_reclaim_spec_witness :
    (cleanup_old_data retStore 0 100).2.2.rows = retStore.rows.filter (fun r => !r.synced)
    ∧ (cleanup_old_data retStore 0 100).2.2.rows.map Row.id = [2] :=
  ⟨(C6_reclaim_spec retStore 0 100).2.2.2 (by decide), by decide⟩

/-- Counterexample to C7 as stated: the dictionary returned by `stats()` has
the keys total, unsynced, failed and size_bytes — there is no key named
pending and none named dead_lettered. -/
theorem C7_stats_keys_counterexample :
    (get_stats emptyStore).map Prod.fst = ["total", "unsynced", "failed", "size_bytes"]
    ∧ lookupKey (get_stats emptyStore) "pending" = none
    ∧ lookupKey (get_stats emptyStore) "dead_lettered" = none := by
  decide

/-- C7 (amended): `stats()` returns the keys {total, unsynced, failed,
size_bytes} (unsynced playing the pending role and failed the dead-letter
role); and a record on which `increment_retry` has been applied `max_retry`
times is excluded from every later `claim_batch` while the failed counter of
`stats()` counts it. -/
theorem C7_stats_dead_letter :
    (∀ s : Store, (get_stats s).map Prod.fst = ["total", "unsynced", "failed", "size_bytes"])
    ∧ (∀ (s : Store) (r : Row) (i : Nat), r ∈ s.rows → r.id = i → ∀ n : Nat,
        i ∉ (get_unsynced_rows (incrN s [i] max_retry) n).map Row.id
        ∧ (∃ c, lookupKey (get_stats (incrN s [i] max_retry)) "failed" = some c ∧ 0 < c)) := by
  refine ⟨fun s => rfl, ?_⟩
  intro s r i hr hid n
  have hrows := incrN_rows s [i] max_retry
  constructor
  · apply not_claimed_of
    intro r2 hr2 hid2 hcl
    rw [hrows] at hr2
    obtain ⟨r0, hr0, rfl⟩ := List.mem_map.mp hr2
    by_cases hm : r0.id ∈ ([i] : List Nat)
    · rw [if_pos hm] at hcl
      have hlt := hcl.2
      simp only [max_retry] at hlt
      omega
    · rw [if_neg hm] at hid2
      exact hm (by simp [hid2])
  · have hmem : (if r.id ∈ ([i] : List Nat) then
        { r with retry_count := r.retry_count + max_retry } else r)
        ∈ (incrN s [i] max_retry).rows := by
      rw [hrows]
      exact List.mem_map_of_mem _ hr
    rw [if_pos (by simp [hid])] at hmem
    refine ⟨(incrN s [i] max_retry).rows.countP
      (fun r2 => decide (max_retry ≤ r2.retry_count)), ?_, ?_⟩
    · simp [get_stats, lookupKey]
    · apply List.countP_pos_iff.mpr
      refine ⟨_, hmem, ?_⟩
      simp

/-- Witness for C7 (amended): record 1 of the one-record store, bumped
`max_retry` times, is not claimable. -/
theorem C7_stats_dead_letter_witness :
    (1 : Nat) ∉ (get_unsynced_rows (incrN oneRecStore [1] max_retry) 10).map Row.id :=
  (C7_stats_dead_letter.2 oneRecStore
    ⟨1, 0, Val.str "unknown", Val.int 1, Val.int 0, Val.int 0, Val.int 0, Val.int 0,
      Val.int 0, Val.int 0, false, 0, none, 0⟩ 1 (by decide) (by decide) 10).1

/-- C8: `mark_synced` sets `synced = 1` for exactly the rows whose id is in
the given list while leaving every other row unchanged (same table length,
listed rows flipped to synced, unlisted rows kept verbatim); it is a no-op
when no row matches — SQLite treats an empty or unmatched `IN` list as
selecting nothing — and it always reports success. Never-partial holds by
the single-UPDATE transaction: the one statement applies the flag to all
listed ids together, and the model has no separate I/O failure path on
which a strict subset could be updated. -/
theorem C8_mark_synced_exact :
    ∀ (s : Store) (ids : List Nat),
      ((mark_synced s ids).1 = true)
      ∧ ((mark_synced s ids).2.next_id = s.next_id)
      ∧ ((mark_synced s ids).2.rows.length = s.rows.length)
      ∧ (∀ r ∈ s.rows, r.id ∈ ids → { r with synced := true } ∈ (mark_synced s ids).2.rows)
      ∧ (∀ r ∈ s.rows, r.id ∉ ids → r ∈ (mark_synced s ids).2.rows)
      ∧ ((∀ r ∈ s.rows, r.id ∉ ids) → (mark_synced s ids).2 = s) := by
  intro s ids
  refine ⟨rfl, rfl, ?_, ?_, ?_, ?_⟩
  · rw [mark_synced_rows, List.length_map]
  · intro r hr hmem
    rw [mark_synced_rows]
    exact List.mem_map.mpr ⟨r, hr, by simp [hmem]⟩
  · intro r hr hmem
    rw [mark_synced_rows]
    exact List.mem_map.mpr ⟨r, hr, by simp [hmem]⟩
  · intro hall
    have hmap : s.rows.map (fun r => if r.id ∈ ids then { r with synced := true } else r)
        = s.rows := by
      rw [List.map_congr_left (g := id) (fun r hr => by rw [if_neg (hall r hr)]; rfl)]
      exact List.map_id s.rows
    conv_lhs => rw [show (mark_synced s ids).2
      = { s with rows := s.rows.map (fun r =>
          if r.id ∈ ids then { r with synced := true } else r) } from rfl]
    rw [hmap]

/-- Witness for C8: marking the unmatched id 5 on the one-record store is a
no-op. -/
theorem C8_mark_synced_exact_witness :
    (mark_synced oneRecStore [5]).2 = oneRecStore :=
  (C8_mark_synced_exact oneRecStore [5]).2.2.2.2.2 (by decide)

/-! ### Sync worker claims -/

/-- Location dictionaries used in the worker scenarios. -/
def locB : List (String × Val) := [("latitude", Val.int 1), ("longitude", Val.int 0)]

/-- Second location dictionary for the worker scenarios. -/
def locC : List (String × Val) := [("latitude", Val.int 2), ("longitude", Val.int 0)]

/-- Fifty accumulated batch entries (below the default batch size of 100). -/
def bigBatch : List (List (String × Val)) := List.replicate 50 locB

/-- The condition under which one worker iteration actually invokes
`batch_upload`: a fetched item pushed the batch to `batch_size` or the
sub-day seconds component of the elapsed time — `timedelta.seconds`, which
wraps at 86400 — reached the interval; or the queue was empty (get timeout)
with a non-empty batch. -/
abbrev flushNow (cfg : SyncConfig) (st : WorkerState) (now : Nat) : Prop :=
  match st.queue with
  | [] => st.batch ≠ []
  | _ :: _ =>
      cfg.batch_size ≤ st.batch.length + 1 ∨
        cfg.sync_interval ≤ (now - st.last_sync) % 86400

/-- Counterexample to C1 as stated: a failed flush of a batch of two items
does not increase each member's retry count by exactly 1. The first item
entered the queue with attempts 0, yet after the failed push both re-queued
items carry attempts 4 (the last fetched item's attempts 3 plus 1); the
worker touches no durable-store state (no mark_synced, no increment_retry)
in either outcome. -/
theorem C1_requeue_counterexample :
    (sync_worker_step ⟨2, 30, "dev"⟩
        ((sync_worker_step ⟨2, 30, "dev"⟩
          ⟨[⟨0, locB, 0⟩, ⟨0, locC, 3⟩], [], 0⟩ 1 true).state) 2 false)
      = ⟨⟨[⟨2, locB, 4⟩, ⟨2, locC, 4⟩], [], 0⟩, some ("dev", [locB, locC])⟩
    ∧ (⟨0, locB, 0⟩ : QItem).attempts = 0
    ∧ (4 : Nat) ≠ 0 + 1 := by
  decide

/-- C1 (amended): per flushed batch the worker only manipulates its own
in-memory structures. When an arriving item triggers the flush: on push
success the batch is dropped and the flush timer reset; on push failure
every batch member is re-queued at the back of the in-memory queue, all with
attempts equal to the last fetched item's attempts + 1, the batch is cleared
and the timer is not reset. On a queue-empty flush that fails, the batch is
simply kept. The interval trigger compares the sub-day seconds component
`(now - last_sync) % 86400`, matching the source's `timedelta.seconds`. No
`mark_synced` or `increment_retry` call occurs on any path. -/
theorem C1_dispatch_outcome :
    ∀ (cfg : SyncConfig) (item : QItem) (rest : List QItem)
      (batch : List (List (String × Val))) (ls now : Nat),
      (cfg.batch_size ≤ batch.length + 1 ∨ cfg.sync_interval ≤ (now - ls) % 86400) →
      (sync_worker_step cfg ⟨item :: rest, batch, ls⟩ now true
        = ⟨⟨rest, [], now⟩, some (cfg.device_id, batch ++ [item.data])⟩)
      ∧ (sync_worker_step cfg ⟨item :: rest, batch, ls⟩ now false
        = ⟨⟨rest ++ (batch ++ [item.data]).map (fun d => ⟨now, d, item.attempts + 1⟩),
            [], ls⟩,
           some (cfg.device_id, batch ++ [item.data])⟩)
      ∧ (∀ q ∈ ((sync_worker_step cfg ⟨item :: rest, batch, ls⟩ now false).state.queue.drop
            rest.length), q.attempts = item.attempts + 1)
      ∧ (∀ b2 : List (List (String × Val)), b2 ≠ [] →
          sync_worker_step cfg ⟨[], b2, ls⟩ now false
            = ⟨⟨[], b2, ls⟩, some (cfg.device_id, b2)⟩) := by
  intro cfg item rest batch ls now h
  have hcond : (decide (cfg.batch_size ≤ (batch ++ [item.data]).length) ||
      decide (cfg.sync_interval ≤ (now - ls) % 86400)) = true := by
    simpa [List.length_append] using h
  have e2 : sync_worker_step cfg ⟨item :: rest, batch, ls⟩ now false
      = ⟨⟨rest ++ (batch ++ [item.data]).map (fun d => ⟨now, d, item.attempts + 1⟩),
          [], ls⟩,
         some (cfg.device_id, batch ++ [item.data])⟩ := by
    simp only [sync_worker_step]
    rw [if_pos hcond]
    simp
  refine ⟨?_, e2, ?_, ?_⟩
  · simp only [sync_worker_step]
    rw [if_pos hcond]
    simp
  · rw [e2]
    intro q hq
    simp only [List.drop_left] at hq
    obtain ⟨d, _, rfl⟩ := List.mem_map.mp hq
    rfl
  · intro b2 hb2
    simp only [sync_worker_step]
    rw [if_neg (by simpa using hb2)]
    simp

/-- Witness for C1 (amended): the failed flush of the two-item batch
re-queues both members with attempts 4. -/
theorem C1_dispatch_outcome_witness :
    sync_worker_step ⟨2, 30, "dev"⟩ ⟨[⟨0, locC, 3⟩], [locB], 0⟩ 2 false
      = ⟨⟨([] : List QItem) ++ ([locB] ++ [locC]).map (fun d => ⟨2, d, 3 + 1⟩), [], 0⟩,
         some ("dev", [locB] ++ [locC])⟩ :=
  (C1_dispatch_outcome ⟨2, 30, "dev"⟩ ⟨0, locC, 3⟩ [] [locB] 0 2
    (Or.inl (by decide))).2.1

/-- Counterexample to C5 as stated: the worker flushes a 50-record batch
with only 5 seconds elapsed (size 50 < 100 and 5 < 30, so neither claimed
trigger holds) merely because the in-memory queue is empty after the
1-second get timeout — the remainder of a burst is not held back until the
interval elapses. -/
theorem C5_flush_on_drain_counterexample :
    (sync_worker_step ⟨100, 30, "dev"⟩ ⟨[], bigBatch, 10⟩ 15 true).pushed ≠ none
    ∧ bigBatch.length < 100
    ∧ (15 : Nat) - 10 < 30 := by
  decide

/-- C5 (amended): one worker iteration invokes `batch_upload` exactly when
either a fetched item brings the batch to `batch_size` or the sub-day
seconds component of the time since the last successful flush —
`(now - last_sync) % 86400`, the source's `timedelta.seconds`, which wraps
after a full day — reaches `sync_interval` (both checked only when an item
arrives), or the queue is empty after the get timeout while the batch is
non-empty. In the 150-record scenario the first flush still happens at 100
records on the size trigger, but the remaining 50 are flushed as soon as
the queue drains rather than when the interval elapses. -/
theorem C5_flush_trigger :
    ∀ (cfg : SyncConfig) (st : WorkerState) (now : Nat) (pushOk : Bool),
      (sync_worker_step cfg st now pushOk).pushed ≠ none ↔ flushNow cfg st now := by
  intro cfg st now ok
  obtain ⟨q, b, l⟩ := st
  cases q with
  | nil =>
      cases b with
      | nil => simp [sync_worker_step, flushNow]
      | cons d b2 => cases ok <;> simp [sync_worker_step, flushNow]
  | cons item rest =>
      by_cases hcond : (decide (cfg.batch_size ≤ (b ++ [item.data]).length) ||
          decide (cfg.sync_interval ≤ (now - l) % 86400)) = true
      · have hc2 : cfg.batch_size ≤ b.length + 1 ∨
            cfg.sync_interval ≤ (now - l) % 86400 := by
          simpa [List.length_append] using hcond
        simp only [sync_worker_step]
        rw [if_pos hcond]
        cases ok <;> simp [flushNow, hc2]
      · have hc2 : ¬(cfg.batch_size ≤ b.length + 1) ∧
            ¬(cfg.sync_interval ≤ (now - l) % 86400) := by
          simpa [List.length_append, not_or] using hcond
        simp only [sync_worker_step]
        rw [if_neg hcond]
        simp [flushNow, hc2.1, hc2.2]

/-- Witness for C5 (amended): an arriving second item reaches the batch size
of 2 and triggers a push. -/
theorem C5_flush_trigger_witness :
    (sync_worker_step ⟨2, 30, "dev"⟩ ⟨[⟨0, locC, 0⟩], [locB], 0⟩ 1 true).pushed ≠ none :=
  (C5_flush_trigger ⟨2, 30, "dev"⟩ ⟨[⟨0, locC, 0⟩], [locB], 0⟩ 1 true).mpr
    (Or.inl (by decide))
